import Mathlib

/-!
Shallow embedding of `src/interface2.py`, a Streamlit dashboard that uploads
a chromatography data file, normalizes the time column to minutes, delegates
peak fitting to the external `hplc` library and renders the results.

Pandas data frames are modelled in two ways: `DataFrame` (named columns of
rational numbers) for the analysis pipeline, and `RawFrame` (string cells)
for the CSV ingestion pipeline.  Streamlit display calls are modelled as an
ordered event trace (`Ev`); calls into the external `hplc` library are
modelled by a record of functions returning `Except`, where `Except.error`
stands for a raised Python exception.
-/

/-- A Streamlit display call or an external-library call, recorded in order.
`info`, `warning`, `error`, `success` model `st.info`, `st.warning`,
`st.error`, `st.success`; `exceptionShown` models `st.exception`;
`callChromatogram` and `callFitPeaks` record that the external `hplc`
library's `Chromatogram` constructor / `fit_peaks` method was invoked. -/
inductive Ev where
  | info (s : String)
  | warning (s : String)
  | error (s : String)
  | success (s : String)
  | exceptionShown (s : String)
  | callChromatogram
  | callFitPeaks
  | peakInfoPanel
  deriving DecidableEq, Repr

/-- A pandas `DataFrame` restricted to what the analysis pipeline uses: an
ordered list of named columns.  Numeric cells are modelled as rationals. -/
structure DataFrame where
  cols : List (String × List ℚ)
  deriving DecidableEq, Repr

/-- `df.columns` of pandas: the list of column names. -/
def DataFrame.columnNames (df : DataFrame) : List String :=
  df.cols.map (fun p => p.1)

/-- Column lookup `df[c]`: `none` models a pandas `KeyError`. -/
def DataFrame.getCol? (df : DataFrame) (c : String) : Option (List ℚ) :=
  (df.cols.find? (fun p => p.1 == c)).map (fun p => p.2)

/-- Column assignment `df.loc[:, c] = xs`: replaces the values of every
column named `c`, leaving all other columns untouched. -/
def DataFrame.setCol (df : DataFrame) (c : String) (xs : List ℚ) : DataFrame :=
  ⟨df.cols.map (fun p => if p.1 = c then (c, xs) else p)⟩

/-- `pd.DataFrame()`: the empty frame. -/
def DataFrame.emptyFrame : DataFrame := ⟨[]⟩

/-- pandas `df.empty`: true when the frame has no columns or no rows
(pandas frames are rectangular, so "no rows" is "some column is empty"). -/
def DataFrame.isEmpty (df : DataFrame) : Bool :=
  df.cols.isEmpty || df.cols.any (fun p => p.2.isEmpty)

/-- `convert_time_to_minutes` (src/interface2.py lines 21-49).  Copies the
frame (`data.copy()`; the copy is the value returned) and rescales the time
column according to the unit label, emitting the corresponding Streamlit
message.  `data_copy[time_col]` on a missing column raises a pandas
`KeyError`, modelled as `Except.error`; the unknown-unit branch never reads
the column and only warns. -/
def convert_time_to_minutes (data : DataFrame) (time_col time_unit : String) :
    Except String (DataFrame × List Ev) :=
  let data_copy := data
  if time_unit = "Segundos" then
    match data_copy.getCol? time_col with
    | none => .error ("KeyError: " ++ time_col)
    | some xs =>
        .ok (data_copy.setCol time_col (xs.map (fun x => x / 60)),
             [.info "✅ Tempo convertido de segundos para minutos"])
  else if time_unit = "Milisegundos" then
    match data_copy.getCol? time_col with
    | none => .error ("KeyError: " ++ time_col)
    | some xs =>
        .ok (data_copy.setCol time_col (xs.map (fun x => x / 60000)),
             [.info "✅ Tempo convertido de milissegundos para minutos"])
  else if time_unit = "Minutos" then
    .ok (data_copy, [.info "✅ Tempo já está em minutos"])
  else
    .ok (data_copy,
         [.warning s!"Unidade de tempo desconhecida: {time_unit}. Nenhuma conversão aplicada."])

/-- Object-level view of `convert_time_to_minutes` for the aliasing/frame
claims: a heap maps object ids to frames, `dataId` is the argument object,
and `freshId` is the id allocated by `data.copy()`; the `.loc` assignment
mutates only the copy, and the function returns the copy's id.  On a
`KeyError` the copy has already been allocated but the exception
propagates, so no id is returned. -/
def convert_time_to_minutes_heap (heap : Nat → DataFrame) (dataId freshId : Nat)
    (time_col time_unit : String) :
    (Nat → DataFrame) × Except String Nat × List Ev :=
  match convert_time_to_minutes (heap dataId) time_col time_unit with
  | .error e => (Function.update heap freshId (heap dataId), .error e, [])
  | .ok (df, msgs) => (Function.update heap freshId df, .ok freshId, msgs)

/-- The options of the "Unidade de Tempo" selectbox (src/interface2.py
line 245). -/
def time_unit_options : List String := ["Segundos", "Minutos", "Milissegundos"]

instance exceptDecEq {ε α : Type} [DecidableEq ε] [DecidableEq α] :
    DecidableEq (Except ε α) := fun a b =>
  match a, b with
  | .error e, .error f =>
      if h : e = f then isTrue (by rw [h]) else isFalse (fun hh => h (by cases hh; rfl))
  | .ok x, .ok y =>
      if h : x = y then isTrue (by rw [h]) else isFalse (fun hh => h (by cases hh; rfl))
  | .error _, .ok _ => isFalse (fun hh => Except.noConfusion hh)
  | .ok _, .error _ => isFalse (fun hh => Except.noConfusion hh)

theorem DataFrame.columnNames_setCol (df : DataFrame) (c : String) (xs : List ℚ) :
    (df.setCol c xs).columnNames = df.columnNames := by
  unfold DataFrame.setCol DataFrame.columnNames
  simp only [List.map_map]
  apply List.map_congr_left
  intro p _
  by_cases h : p.1 = c <;> simp [h]

theorem find?_map_setCol_ne (t : List (String × List ℚ)) (c c' : String) (xs : List ℚ)
    (h : c' ≠ c) :
    List.find? (fun p => p.1 == c') (t.map (fun p => if p.1 = c then (c, xs) else p)) =
      List.find? (fun p => p.1 == c') t := by
  induction t with
  | nil => rfl
  | cons p t ih =>
      simp only [List.map_cons, List.find?_cons]
      by_cases hc : p.1 = c'
      · have hp : p.1 ≠ c := by rw [hc]; exact h
        rw [if_neg hp]
        simp [hc]
      · have h1 : ((if p.1 = c then (c, xs) else p).1 == c') = false := by
          by_cases hp : p.1 = c
          · rw [if_pos hp]
            exact beq_false_of_ne (fun e => h e.symm)
          · rw [if_neg hp]
            exact beq_false_of_ne hc
        simp only [h1, beq_false_of_ne hc]
        exact ih

theorem find?_map_setCol_self (t : List (String × List ℚ)) (c : String) (xs : List ℚ)
    (q : String × List ℚ) (h : List.find? (fun p => p.1 == c) t = some q) :
    List.find? (fun p => p.1 == c) (t.map (fun p => if p.1 = c then (c, xs) else p)) =
      some (c, xs) := by
  induction t with
  | nil => simp at h
  | cons p t ih =>
      simp only [List.map_cons, List.find?_cons] at h ⊢
      by_cases hp : p.1 = c
      · rw [if_pos hp]
        simp
      · have hb : (p.1 == c) = false := beq_false_of_ne hp
        rw [if_neg hp]
        simp only [hb] at h ⊢
        exact ih h

theorem DataFrame.getCol?_setCol_ne (df : DataFrame) (c c' : String) (xs : List ℚ)
    (h : c' ≠ c) : (df.setCol c xs).getCol? c' = df.getCol? c' := by
  unfold DataFrame.setCol DataFrame.getCol?
  rw [find?_map_setCol_ne df.cols c c' xs h]

theorem DataFrame.getCol?_setCol_self (df : DataFrame) (c : String) (xs ys : List ℚ)
    (h : df.getCol? c = some ys) : (df.setCol c xs).getCol? c = some xs := by
  unfold DataFrame.getCol? at h
  obtain ⟨q, hq, -⟩ := Option.map_eq_some'.mp h
  unfold DataFrame.setCol DataFrame.getCol?
  rw [find?_map_setCol_self df.cols c xs q hq]
  rfl

theorem convert_preserves_other_cols (df : DataFrame) (tc u : String) (df' : DataFrame)
    (msgs : List Ev) (h : convert_time_to_minutes df tc u = .ok (df', msgs)) :
    df'.columnNames = df.columnNames ∧ ∀ c, c ≠ tc → df'.getCol? c = df.getCol? c := by
  unfold convert_time_to_minutes at h
  by_cases h1 : u = "Segundos"
  · rw [if_pos h1] at h
    cases hg : df.getCol? tc with
    | none =>
        simp only [hg] at h
        exact Except.noConfusion h
    | some xs =>
        simp only [hg, Except.ok.injEq, Prod.mk.injEq] at h
        obtain ⟨h2, -⟩ := h
        subst h2
        exact ⟨DataFrame.columnNames_setCol df tc _,
               fun c hc => DataFrame.getCol?_setCol_ne df tc c _ hc⟩
  · rw [if_neg h1] at h
    by_cases h2 : u = "Milisegundos"
    · rw [if_pos h2] at h
      cases hg : df.getCol? tc with
      | none =>
          simp only [hg] at h
          exact Except.noConfusion h
      | some xs =>
          simp only [hg, Except.ok.injEq, Prod.mk.injEq] at h
          obtain ⟨h3, -⟩ := h
          subst h3
          exact ⟨DataFrame.columnNames_setCol df tc _,
                 fun c hc => DataFrame.getCol?_setCol_ne df tc c _ hc⟩
    · rw [if_neg h2] at h
      by_cases h3 : u = "Minutos"
      · rw [if_pos h3] at h
        simp only [Except.ok.injEq, Prod.mk.injEq] at h
        obtain ⟨h4, -⟩ := h
        subst h4
        exact ⟨rfl, fun _ _ => rfl⟩
      · rw [if_neg h3] at h
        simp only [Except.ok.injEq, Prod.mk.injEq] at h
        obtain ⟨h4, -⟩ := h
        subst h4
        exact ⟨rfl, fun _ _ => rfl⟩

/-- C1: on a frame whose time column holds the values `xs`, the unit label
"Segundos" rescales every value `x` of that column to `x / 60`,
"Milisegundos" to `x / 60000`, "Minutos" leaves the frame unchanged, and any
other unit label leaves the frame unchanged while emitting a warning (and no
error is raised: the call returns `.ok` with exactly one warning message). -/
theorem C1_time_unit_conversion (df : DataFrame) (tc : String) (xs : List ℚ)
    (h : df.getCol? tc = some xs) :
    convert_time_to_minutes df tc "Segundos" =
      .ok (df.setCol tc (xs.map (fun x => x / 60)),
           [.info "✅ Tempo convertido de segundos para minutos"]) ∧
    (df.setCol tc (xs.map (fun x => x / 60))).getCol? tc = some (xs.map (fun x => x / 60)) ∧
    convert_time_to_minutes df tc "Milisegundos" =
      .ok (df.setCol tc (xs.map (fun x => x / 60000)),
           [.info "✅ Tempo convertido de milissegundos para minutos"]) ∧
    (df.setCol tc (xs.map (fun x => x / 60000))).getCol? tc =
      some (xs.map (fun x => x / 60000)) ∧
    convert_time_to_minutes df tc "Minutos" = .ok (df, [.info "✅ Tempo já está em minutos"]) ∧
    (∀ u : String, u ∉ ["Segundos", "Milisegundos", "Minutos"] →
      convert_time_to_minutes df tc u =
        .ok (df, [.warning s!"Unidade de tempo desconhecida: {u}. Nenhuma conversão aplicada."])) := by
  refine ⟨?_, DataFrame.getCol?_setCol_self df tc _ xs h, ?_,
          DataFrame.getCol?_setCol_self df tc _ xs h, ?_, ?_⟩
  · simp [convert_time_to_minutes, h]
  · simp [convert_time_to_minutes, h]
  · simp [convert_time_to_minutes]
  · intro u hu
    simp only [List.mem_cons, List.mem_singleton, not_or] at hu
    obtain ⟨hu1, hu2, hu3, -⟩ := hu
    simp [convert_time_to_minutes, hu1, hu2, hu3]

theorem C1_time_unit_conversion_witness :
    convert_time_to_minutes ⟨[("Tempo", [(120 : ℚ)])]⟩ "Tempo" "Segundos" =
      .ok (⟨[("Tempo", [(2 : ℚ)])]⟩, [.info "✅ Tempo convertido de segundos para minutos"]) ∧
    convert_time_to_minutes ⟨[("Tempo", [(120 : ℚ)])]⟩ "Tempo" "Horas" =
      .ok (⟨[("Tempo", [(120 : ℚ)])]⟩,
        [.warning "Unidade de tempo desconhecida: Horas. Nenhuma conversão aplicada."]) := by
  have h := C1_time_unit_conversion ⟨[("Tempo", [(120 : ℚ)])]⟩ "Tempo" [(120 : ℚ)] (by decide)
  constructor
  · rw [h.1]
    norm_num [DataFrame.setCol]
  · rw [h.2.2.2.2.2 "Horas" (by decide)]
    decide

/-- C2: the UI "Unidade de Tempo" selectbox offers the label "Milissegundos"
(line 245), but the normalizer only recognizes "Milisegundos" (line 39); the
two strings differ, so selecting milliseconds in the UI falls through to the
unknown-unit branch: the time value 60000 stays 60000 (instead of becoming
1) and an unknown-unit warning is emitted. -/
theorem C2_milliseconds_label_mismatch :
    "Milissegundos" ∈ time_unit_options ∧
    ("Milissegundos" == "Milisegundos") = false ∧
    convert_time_to_minutes ⟨[("Tempo", [(60000 : ℚ)])]⟩ "Tempo" "Milissegundos" =
      .ok (⟨[("Tempo", [(60000 : ℚ)])]⟩,
        [.warning "Unidade de tempo desconhecida: Milissegundos. Nenhuma conversão aplicada."]) := by
  refine ⟨by decide, by decide, by decide⟩

/-- C8 counterexample: with unit "Segundos" and a time column name that is
absent from the frame, `data_copy[time_col]` raises a pandas `KeyError`, so
the call does not return a copy of the dataset at all. -/
theorem C8_missing_column_keyerror :
    convert_time_to_minutes ⟨[("Sinal", [(1 : ℚ)])]⟩ "Tempo" "Segundos" =
      .error "KeyError: Tempo" ∧
    (convert_time_to_minutes ⟨[("Sinal", [(1 : ℚ)])]⟩ "Tempo" "Segundos").toOption = none := by
  refine ⟨by decide, by decide⟩

/-- C8 (amended): the original dataset object is left entirely unmodified in
every case, and whenever `convert_time_to_minutes` returns (it raises a
`KeyError` when the unit is "Segundos" or "Milisegundos" and the time column
is absent), the value returned is the fresh copy allocated by `data.copy()`,
in which every column other than the named time column is unchanged. -/
theorem C8_fresh_copy_frame (heap : Nat → DataFrame) (dataId freshId : Nat)
    (tc u : String) (hne : freshId ≠ dataId) :
    ((convert_time_to_minutes_heap heap dataId freshId tc u).1 dataId = heap dataId) ∧
    (∀ df' msgs, convert_time_to_minutes (heap dataId) tc u = .ok (df', msgs) →
      (convert_time_to_minutes_heap heap dataId freshId tc u).2.1 = .ok freshId ∧
      (convert_time_to_minutes_heap heap dataId freshId tc u).1 freshId = df' ∧
      df'.columnNames = (heap dataId).columnNames ∧
      ∀ c, c ≠ tc → df'.getCol? c = (heap dataId).getCol? c) := by
  constructor
  · unfold convert_time_to_minutes_heap
    cases convert_time_to_minutes (heap dataId) tc u with
    | error e => exact Function.update_noteq (Ne.symm hne) _ heap
    | ok r => exact Function.update_noteq (Ne.symm hne) _ heap
  · intro df' msgs hok
    have hframe := convert_preserves_other_cols (heap dataId) tc u df' msgs hok
    unfold convert_time_to_minutes_heap
    rw [hok]
    exact ⟨rfl, Function.update_same _ _ _, hframe.1, hframe.2⟩

theorem C8_fresh_copy_frame_witness :
    (convert_time_to_minutes_heap
        (fun _ => ⟨[("Tempo", [(60 : ℚ)]), ("Sinal", [(5 : ℚ)])]⟩) 0 1 "Tempo" "Segundos").1 0 =
      ⟨[("Tempo", [(60 : ℚ)]), ("Sinal", [(5 : ℚ)])]⟩ ∧
    (convert_time_to_minutes_heap
        (fun _ => ⟨[("Tempo", [(60 : ℚ)]), ("Sinal", [(5 : ℚ)])]⟩) 0 1 "Tempo" "Segundos").1 1 =
      ⟨[("Tempo", [(1 : ℚ)]), ("Sinal", [(5 : ℚ)])]⟩ ∧
    DataFrame.getCol? ⟨[("Tempo", [(1 : ℚ)]), ("Sinal", [(5 : ℚ)])]⟩ "Sinal" =
      DataFrame.getCol? ⟨[("Tempo", [(60 : ℚ)]), ("Sinal", [(5 : ℚ)])]⟩ "Sinal" := by
  have h := C8_fresh_copy_frame
    (fun _ => ⟨[("Tempo", [(60 : ℚ)]), ("Sinal", [(5 : ℚ)])]⟩) 0 1 "Tempo" "Segundos"
    (by decide)
  have h2 := h.2 ⟨[("Tempo", [(1 : ℚ)]), ("Sinal", [(5 : ℚ)])]⟩
    [.info "✅ Tempo convertido de segundos para minutos"]
    (by
      norm_num [convert_time_to_minutes, DataFrame.getCol?, DataFrame.setCol, List.find?_cons]
      decide)
  have hne : "Sinal" ≠ "Tempo" := by decide
  exact ⟨h.1, h2.2.1, h2.2.2.2 "Sinal" hne⟩

/-- The four `fit_peaks` parameters assembled in the sidebar (src/interface2.py
lines 111-125): baseline-correction flag, approximate peak width, buffer,
prominence. -/
structure Params where
  correct_baseline : Bool
  approx_peak_width : ℚ
  buffer : ℕ
  prominence : ℚ
  deriving DecidableEq, Repr

/-- The external `hplc.quant` library, abstracted: `chromatogram df tc sc`
models the constructor call `Chromatogram(df, cols={'time': tc, 'signal':
sc})` and `fit_peaks` models the method of the same name; `Except.error s`
models a raised Python exception with message `str(e) = s`.  `Chrom` is the
type of chromatogram objects, about which this program assumes nothing. -/
structure HplcQuant (Chrom : Type) where
  chromatogram : DataFrame → String → String → Except String Chrom
  fit_peaks : Chrom → Params → Except String DataFrame

/-- `process_chromatogram_hplc` (src/interface2.py lines 52-95).  `lib = none`
models `HPLC_LIB_AVAILABLE = False`.  The try/except of lines 70-95 is
modelled by matching on the `Except` results of the two external calls: any
exception is caught and turned into `(None, pd.DataFrame())` plus the error
report of lines 93-94, so the function always returns an ordinary value. -/
def process_chromatogram_hplc {Chrom : Type} (lib : Option (HplcQuant Chrom))
    (data_df : DataFrame) (time_col signal_col : String) (params : Params) :
    (Option Chrom × DataFrame) × List Ev :=
  match lib with
  | none =>
      ((none, DataFrame.emptyFrame),
       [.error "❌ Biblioteca HPLC não está disponível. Não é possível processar picos."])
  | some l =>
      if time_col ∉ data_df.columnNames ∨ signal_col ∉ data_df.columnNames then
        ((none, DataFrame.emptyFrame),
         [.info "🛠️ Processando com biblioteca HPLC...",
          .error s!"Colunas \x27{time_col}\x27 ou \x27{signal_col}\x27 não encontradas no DataFrame."])
      else
        match l.chromatogram data_df time_col signal_col with
        | .error e =>
            ((none, DataFrame.emptyFrame),
             [.info "🛠️ Processando com biblioteca HPLC...", .callChromatogram,
              .error s!"❌ Erro ao processar com biblioteca HPLC: {e}", .exceptionShown e])
        | .ok cromatograma =>
            match l.fit_peaks cromatograma params with
            | .error e =>
                ((none, DataFrame.emptyFrame),
                 [.info "🛠️ Processando com biblioteca HPLC...", .callChromatogram,
                  .callFitPeaks,
                  .error s!"❌ Erro ao processar com biblioteca HPLC: {e}", .exceptionShown e])
            | .ok dados_picos =>
                ((some cromatograma, dados_picos),
                 [.info "🛠️ Processando com biblioteca HPLC...", .callChromatogram,
                  .callFitPeaks, .success "✅ Análise de picos concluída."])

/-- Elements drawn on the matplotlib axes (src/interface2.py lines 292-315):
the raw signal-vs-time curve (line 296), the red peak markers (line 300) and
the dotted vertical drop-lines (line 301). -/
inductive PlotElem where
  | rawCurve
  | peakMarkers
  | peakDropLines
  deriving DecidableEq, Repr

/-- The results section of `main` (src/interface2.py lines 284-359): the
chromatogram plot (graph column, lines 290-316) and the peak-information
panel (info column, lines 318-359).  The metrics/table/download/statistics
shown when the peak table is non-empty (lines 321-355) are summarised by the
single event `peakInfoPanel`; all other branches are modelled message by
message. -/
def renderResults (hplcAvailable : Bool) (data_df : DataFrame)
    (time_col signal_col : String) (dados_picos : DataFrame) :
    List PlotElem × List Ev :=
  let graph :=
    if time_col ∈ data_df.columnNames ∧ signal_col ∈ data_df.columnNames then
      if ¬dados_picos.isEmpty ∧ "rt" ∈ dados_picos.columnNames ∧
          "height" ∈ dados_picos.columnNames then
        ([PlotElem.rawCurve, PlotElem.peakMarkers, PlotElem.peakDropLines], ([] : List Ev))
      else
        ([PlotElem.rawCurve], ([] : List Ev))
    else
      ([], [Ev.error "Não foi possível plotar o cromatograma. Verifique as colunas e os dados."])
  let infoPanel :=
    if hplcAvailable then
      if ¬dados_picos.isEmpty then [Ev.peakInfoPanel]
      else [Ev.warning "Nenhum pico foi detectado com os parâmetros atuais."]
    else [Ev.info "Análise de picos requer a biblioteca HPLC."]
  (graph.1, graph.2 ++ infoPanel)

/-- The processing step of `main` (src/interface2.py lines 269-277): when
`HPLC_LIB_AVAILABLE` the adapter is called; otherwise a warning is shown and
the initial `cromatograma = None`, `dados_picos = pd.DataFrame()` of lines
270-271 are kept. -/
def processStage {Chrom : Type} (lib : Option (HplcQuant Chrom)) (data_df : DataFrame)
    (time_col signal_col : String) (params : Params) :
    (Option Chrom × DataFrame) × List Ev :=
  match lib with
  | some _ => process_chromatogram_hplc lib data_df time_col signal_col params
  | none =>
      ((none, DataFrame.emptyFrame),
       [.warning "Biblioteca HPLC não disponível. A detecção de picos será ignorada."])

/-- Lines 269-359 of `main` combined: process, then render the results from
the produced chromatogram/peak table; `lib.isSome` is `HPLC_LIB_AVAILABLE`. -/
def processAndRender {Chrom : Type} (lib : Option (HplcQuant Chrom)) (data_df : DataFrame)
    (time_col signal_col : String) (params : Params) :
    (Option Chrom × DataFrame) × List PlotElem × List Ev :=
  let r := processStage lib data_df time_col signal_col params
  let g := renderResults lib.isSome data_df time_col signal_col r.1.2
  (r.1, g.1, r.2 ++ g.2)

/-- A concrete external library for witnesses: construction succeeds and the
fit returns a one-peak table. -/
def unitLibOk : HplcQuant Unit :=
  ⟨fun _ _ _ => .ok (), fun _ _ => .ok ⟨[("rt", [(1 : ℚ)])]⟩⟩

/-- A concrete external library for witnesses: construction succeeds and the
fit raises an exception with message "boom". -/
def unitLibFitErr : HplcQuant Unit :=
  ⟨fun _ _ _ => .ok (), fun _ _ => .error "boom"⟩

/-- Concrete parameters for witnesses. -/
def paramsW : Params := ⟨false, 1, 100, 1⟩

/-- A concrete two-column dataset for witnesses. -/
def dfTS : DataFrame := ⟨[("Tempo", [(0 : ℚ), 1]), ("Sinal", [(0 : ℚ), 2])]⟩

/-- C3: with the library available, invoking the adapter with a time or
signal column name absent from the dataset returns `(None, empty peak
table)`, reports the missing-column error, and returns normally (no
exception crosses the adapter boundary); no external call happens — in
particular no chromatogram object is constructed. -/
theorem C3_missing_column_adapter {Chrom : Type} (l : HplcQuant Chrom)
    (df : DataFrame) (tc sc : String) (p : Params)
    (h : tc ∉ df.columnNames ∨ sc ∉ df.columnNames) :
    process_chromatogram_hplc (some l) df tc sc p =
      ((none, DataFrame.emptyFrame),
       [.info "🛠️ Processando com biblioteca HPLC...",
        .error s!"Colunas \x27{tc}\x27 ou \x27{sc}\x27 não encontradas no DataFrame."]) ∧
    Ev.callChromatogram ∉ (process_chromatogram_hplc (some l) df tc sc p).2 := by
  have h1 : process_chromatogram_hplc (some l) df tc sc p =
      ((none, DataFrame.emptyFrame),
       [.info "🛠️ Processando com biblioteca HPLC...",
        .error s!"Colunas \x27{tc}\x27 ou \x27{sc}\x27 não encontradas no DataFrame."]) := by
    simp only [process_chromatogram_hplc]
    rw [if_pos h]
  refine ⟨h1, ?_⟩
  rw [h1]
  simp

theorem C3_missing_column_adapter_witness :
    process_chromatogram_hplc (some unitLibOk) dfTS "Tempo" "Pressao" paramsW =
      ((none, DataFrame.emptyFrame),
       [.info "🛠️ Processando com biblioteca HPLC...",
        .error "Colunas \x27Tempo\x27 ou \x27Pressao\x27 não encontradas no DataFrame."]) :=
  (C3_missing_column_adapter unitLibOk dfTS "Tempo" "Pressao" paramsW
    (Or.inr (by decide))).1

/-- C4: if the external fit routine raises an exception, the adapter catches
it, reports it to the user with its message (`st.error` line 93, and the
traceback via `st.exception` line 94), and returns `(None, empty peak
table)` so downstream rendering sees zero peaks; the call returns normally,
so the exception does not escape the adapter. -/
theorem C4_fit_exception_caught {Chrom : Type} (l : HplcQuant Chrom) (df : DataFrame)
    (tc sc : String) (p : Params) (c : Chrom) (e : String)
    (htc : tc ∈ df.columnNames) (hsc : sc ∈ df.columnNames)
    (hcons : l.chromatogram df tc sc = .ok c) (hfit : l.fit_peaks c p = .error e) :
    process_chromatogram_hplc (some l) df tc sc p =
      ((none, DataFrame.emptyFrame),
       [.info "🛠️ Processando com biblioteca HPLC...", .callChromatogram, .callFitPeaks,
        .error s!"❌ Erro ao processar com biblioteca HPLC: {e}", .exceptionShown e]) := by
  simp only [process_chromatogram_hplc, hcons, hfit]
  rw [if_neg (not_or.mpr ⟨not_not_intro htc, not_not_intro hsc⟩)]

theorem C4_fit_exception_caught_witness :
    process_chromatogram_hplc (some unitLibFitErr) dfTS "Tempo" "Sinal" paramsW =
      ((none, DataFrame.emptyFrame),
       [.info "🛠️ Processando com biblioteca HPLC...", .callChromatogram, .callFitPeaks,
        .error "❌ Erro ao processar com biblioteca HPLC: boom", .exceptionShown "boom"]) :=
  C4_fit_exception_caught unitLibFitErr dfTS "Tempo" "Sinal" paramsW () "boom"
    (by decide) (by decide) rfl rfl

/-- C10: the adapter is total at its boundary — for every input it returns a
pair with exactly one of two shapes: `(None, empty peak table)` on every
failure path (library unavailable, missing column, exception in either
external call), or `(some chromatogram, fit result)` when both external
calls succeed; and whenever the chromatogram component is `None`, the peak
table component is the empty frame. -/
theorem C10_adapter_totality {Chrom : Type} (lib : Option (HplcQuant Chrom))
    (df : DataFrame) (tc sc : String) (p : Params) :
    ((process_chromatogram_hplc lib df tc sc p).1 = (none, DataFrame.emptyFrame) ∨
      ∃ l c peaks, lib = some l ∧ l.chromatogram df tc sc = .ok c ∧
        l.fit_peaks c p = .ok peaks ∧
        (process_chromatogram_hplc lib df tc sc p).1 = (some c, peaks)) ∧
    ((process_chromatogram_hplc lib df tc sc p).1.1 = none →
      (process_chromatogram_hplc lib df tc sc p).1.2 = DataFrame.emptyFrame) := by
  cases lib with
  | none => exact ⟨Or.inl rfl, fun _ => rfl⟩
  | some l =>
      by_cases hcol : tc ∉ df.columnNames ∨ sc ∉ df.columnNames
      · have hr : (process_chromatogram_hplc (some l) df tc sc p).1 =
            (none, DataFrame.emptyFrame) := by
          simp only [process_chromatogram_hplc]
          rw [if_pos hcol]
        rw [hr]
        exact ⟨Or.inl rfl, fun _ => rfl⟩
      · cases hc : l.chromatogram df tc sc with
        | error e =>
            have hr : (process_chromatogram_hplc (some l) df tc sc p).1 =
                (none, DataFrame.emptyFrame) := by
              simp only [process_chromatogram_hplc, hc]
              rw [if_neg hcol]
            rw [hr]
            exact ⟨Or.inl rfl, fun _ => rfl⟩
        | ok c =>
            cases hf : l.fit_peaks c p with
            | error e =>
                have hr : (process_chromatogram_hplc (some l) df tc sc p).1 =
                    (none, DataFrame.emptyFrame) := by
                  simp only [process_chromatogram_hplc, hc, hf]
                  rw [if_neg hcol]
                rw [hr]
                exact ⟨Or.inl rfl, fun _ => rfl⟩
            | ok peaks =>
                have hr : (process_chromatogram_hplc (some l) df tc sc p).1 =
                    (some c, peaks) := by
                  simp only [process_chromatogram_hplc, hc, hf]
                  rw [if_neg hcol]
                rw [hr]
                refine ⟨Or.inr ⟨l, c, peaks, rfl, hc, hf, rfl⟩, ?_⟩
                intro hn
                exact absurd hn (by simp)

theorem C10_adapter_totality_witness :
    (process_chromatogram_hplc (some unitLibFitErr) dfTS "Tempo" "Sinal" paramsW).1.2 =
      DataFrame.emptyFrame :=
  (C10_adapter_totality (some unitLibFitErr) dfTS "Tempo" "Sinal" paramsW).2 rfl

/-- C7: when the peak-analysis library is unavailable, the adapter returns no
chromatogram and an empty peak table (lines 66-68); in the main pipeline the
processing stage likewise yields `(None, empty)` with a warning, the plot
contains exactly the raw signal-vs-time curve and no peak markers (lines
295-302), and the info panel states that peak analysis requires the HPLC
library (line 359). -/
theorem C7_library_unavailable {Chrom : Type} (df : DataFrame) (tc sc : String) (p : Params)
    (htc : tc ∈ df.columnNames) (hsc : sc ∈ df.columnNames) :
    process_chromatogram_hplc (none : Option (HplcQuant Chrom)) df tc sc p =
      ((none, DataFrame.emptyFrame),
       [.error "❌ Biblioteca HPLC não está disponível. Não é possível processar picos."]) ∧
    (processAndRender (none : Option (HplcQuant Chrom)) df tc sc p).1 =
      (none, DataFrame.emptyFrame) ∧
    (processAndRender (none : Option (HplcQuant Chrom)) df tc sc p).2.1 =
      [PlotElem.rawCurve] ∧
    Ev.info "Análise de picos requer a biblioteca HPLC." ∈
      (processAndRender (none : Option (HplcQuant Chrom)) df tc sc p).2.2 := by
  refine ⟨rfl, rfl, ?_, ?_⟩
  · simp only [processAndRender, processStage, renderResults, Option.isSome_none]
    rw [if_pos ⟨htc, hsc⟩]
    simp [DataFrame.isEmpty, DataFrame.emptyFrame]
  · simp only [processAndRender, processStage, renderResults, Option.isSome_none]
    rw [if_pos ⟨htc, hsc⟩]
    simp [DataFrame.isEmpty, DataFrame.emptyFrame]

theorem C7_library_unavailable_witness :
    (processAndRender (none : Option (HplcQuant Unit)) dfTS "Tempo" "Sinal" paramsW).2.1 =
      [PlotElem.rawCurve] :=
  (C7_library_unavailable dfTS "Tempo" "Sinal" paramsW (by decide) (by decide)).2.2.1

/-- Latin-1 decoding, modelling `bytes.decode('latin1')`: total — every byte
0-255 maps to the character with the same code point. -/
def latin1Decode (bs : List Nat) : List Char :=
  bs.map (fun b => Char.ofNat b)

/-- Strict UTF-8 decoding as a byte-at-a-time state machine, modelling
`bytes.decode('utf-8')`: `need` is the number of continuation bytes still
expected, `cp` the partial code point, `lo` the smallest code point the
current multi-byte sequence may legally produce (overlong rejection);
surrogates, code points above 0x10FFFF, stray continuation bytes and lead
bytes 0xC0/0xC1/0xF5-0xFF are rejected, as Python's strict decoder does.
`none` models a `UnicodeDecodeError`. -/
def utf8Run : Nat → Nat → Nat → List Char → List Nat → Option (List Char)
  | 0, _, _, acc, [] => some acc.reverse
  | _ + 1, _, _, _, [] => none
  | 0, _, _, acc, b :: rest =>
      if b < 0x80 then utf8Run 0 0 0 (Char.ofNat b :: acc) rest
      else if 0xC2 ≤ b ∧ b < 0xE0 then utf8Run 1 (b - 0xC0) 0x80 acc rest
      else if 0xE0 ≤ b ∧ b < 0xF0 then utf8Run 2 (b - 0xE0) 0x800 acc rest
      else if 0xF0 ≤ b ∧ b < 0xF5 then utf8Run 3 (b - 0xF0) 0x10000 acc rest
      else none
  | k + 1, cp, lo, acc, b :: rest =>
      if 0x80 ≤ b ∧ b < 0xC0 then
        match k with
        | 0 =>
            if lo ≤ cp * 0x40 + (b - 0x80) ∧
                ¬(0xD800 ≤ cp * 0x40 + (b - 0x80) ∧ cp * 0x40 + (b - 0x80) < 0xE000) ∧
                cp * 0x40 + (b - 0x80) < 0x110000 then
              utf8Run 0 0 0 (Char.ofNat (cp * 0x40 + (b - 0x80)) :: acc) rest
            else none
        | k2 + 1 => utf8Run (k2 + 1) (cp * 0x40 + (b - 0x80)) lo acc rest
      else none

/-- `bytes.decode('utf-8')`: runs the state machine from the initial state. -/
def utf8Decode (bs : List Nat) : Option (List Char) :=
  utf8Run 0 0 0 [] bs

/-- Splits a character list at every occurrence of `sep`; the separators are
dropped, `n` separators yield `n + 1` chunks. -/
def splitOnChar (sep : Char) : List Char → List (List Char)
  | [] => [[]]
  | c :: cs =>
      if c = sep then [] :: splitOnChar sep cs
      else
        match splitOnChar sep cs with
        | [] => [[c]]
        | l :: ls => (c :: l) :: ls

/-- A parsed delimited text table: header row and data rows, with cells kept
as raw strings (pandas dtype inference is not modelled). -/
structure RawFrame where
  header : List String
  rows : List (List String)
  deriving DecidableEq, Repr

/-- pandas errors surfaced by `pd.read_csv` in this model: a decode failure
(`UnicodeDecodeError`), a file with no content (`EmptyDataError`), or a data
row with more fields than the header (`ParserError`, "Error tokenizing
data").  Of these, only `UnicodeDecodeError` is caught by the ingestion
ladder's inner handler; the others propagate to the outer try/except of
`main`. -/
inductive PdError where
  | unicodeDecodeError
  | emptyDataError
  | parserError
  deriving DecidableEq, Repr

/-- Core of `pd.read_csv` on already-decoded text: split into lines (blank
lines skipped, pandas default `skip_blank_lines=True`), the first line is
the header, each remaining line is a data row, and `nrows` bounds the number
of data rows.  A file with no non-blank line raises `EmptyDataError`; a data
row with more fields than the header raises `ParserError`, as pandas' C
engine does — only rows actually read (within `nrows`) are checked.  Rows
with fewer fields than the header (which pandas NaN-fills) are kept as
parsed. -/
def parseCsv (content : List Char) (delimiter : Char) (nrows : Option Nat) :
    Except PdError RawFrame :=
  match (splitOnChar '\n' content).filter (fun l => !l.isEmpty) with
  | [] => .error .emptyDataError
  | headerLine :: dataLines =>
      let header := (splitOnChar delimiter headerLine).map (fun l => String.mk l)
      let dataLines := match nrows with
        | some n => dataLines.take n
        | none => dataLines
      let rows := dataLines.map (fun ln =>
        (splitOnChar delimiter ln).map (fun l => String.mk l))
      if rows.any (fun r => header.length < r.length) then .error .parserError
      else .ok ⟨header, rows⟩

/-- The in-memory upload buffer `file_buffer = io.BytesIO(...)` (line 141)
with its read position.  Bytes are naturals 0-255. -/
structure FileBuffer where
  data : List Nat
  pos : Nat
  deriving DecidableEq, Repr

/-- `file_buffer.seek(0)`. -/
def FileBuffer.seek0 (b : FileBuffer) : FileBuffer := ⟨b.data, 0⟩

/-- `pd.read_csv(file_buffer, delimiter=..., nrows=..., encoding=...)`: reads
the buffer from its current position to the end (leaving the position at the
end), decodes with the named encoding ("utf-8" strict; anything else is the
total "latin1" — only those two encodings occur in the source), and parses. -/
def pdReadCsv (buf : FileBuffer) (delimiter : Char) (nrows : Option Nat)
    (encoding : String) : Except PdError RawFrame × FileBuffer :=
  let bytes := buf.data.drop buf.pos
  let buf2 : FileBuffer := ⟨buf.data, buf.data.length⟩
  if encoding = "utf-8" then
    match utf8Decode bytes with
    | none => (.error .unicodeDecodeError, buf2)
    | some content => (parseCsv content delimiter nrows, buf2)
  else
    (parseCsv (latin1Decode bytes) delimiter nrows, buf2)

/-- The ingestion pattern written out at src/interface2.py lines 155-162,
172-177 and 259-264: `file_buffer.seek(0)`, try UTF-8, and on a
`UnicodeDecodeError` seek to 0 again and retry with Latin-1.  Any other
parse error propagates (to the surrounding try/except of `main`).  The same
delimiter and the same fallback are used at every call site; only `nrows`
differs between the preview (10) and the full parses (no bound). -/
def read_csv_with_fallback (buf : FileBuffer) (delimiter : Char)
    (nrows : Option Nat) : Except PdError RawFrame × FileBuffer :=
  let buf0 := buf.seek0
  match pdReadCsv buf0 delimiter nrows "utf-8" with
  | (.error .unicodeDecodeError, buf1) => pdReadCsv buf1.seek0 delimiter nrows "latin1"
  | r => r

/-- The value computed by `read_csv_with_fallback` as a function of the
buffer's byte content alone. -/
def readPolicy (bytes : List Nat) (delimiter : Char) (nrows : Option Nat) :
    Except PdError RawFrame :=
  match utf8Decode bytes with
  | none => parseCsv (latin1Decode bytes) delimiter nrows
  | some content => parseCsv content delimiter nrows

/-- The preview + full-info ingestion sequence of `main` (lines 152-177): one
buffer, a preview parse with `nrows=10`, then a full parse of the same
buffer, both through the same delimiter and the same fallback policy. -/
def previewAndFull (bytes : List Nat) (delimiter : Char) :
    Except PdError RawFrame × Except PdError RawFrame :=
  let file_buffer : FileBuffer := ⟨bytes, 0⟩
  let r1 := read_csv_with_fallback file_buffer delimiter (some 10)
  let r2 := read_csv_with_fallback r1.2 delimiter none
  (r1.1, r2.1)

/-- Outcome of the column-configuration step of `main`. -/
inductive ColumnStage where
  | halted (events : List Ev)
  | proceed (available_columns : List String) (default_time_idx default_signal_idx : Nat)
  deriving DecidableEq, Repr

/-- Lines 200-249 of `main`: `available_columns` is the full-info parse's
column list; an empty list reports a column-detection error and `st.stop()`s
before the column selectors are built; otherwise the selectors are offered,
with default indices guessed from common column names ("time"/"tempo" for
time; "signal"/"sinal"/"intensity" for signal, else column 1 when it
exists). -/
def columnStage (full_data_info : RawFrame) : ColumnStage :=
  let available_columns := full_data_info.header
  if available_columns.isEmpty then
    .halted [.error "Não foram detetadas colunas no ficheiro. Verifique o delimitador."]
  else
    let default_time_col_index :=
      if "time" ∈ available_columns then available_columns.indexOf "time"
      else if "tempo" ∈ available_columns then available_columns.indexOf "tempo"
      else 0
    let base_signal_index := if available_columns.length > 1 then 1 else 0
    let default_signal_col_index :=
      if "signal" ∈ available_columns then available_columns.indexOf "signal"
      else if "sinal" ∈ available_columns then available_columns.indexOf "sinal"
      else if "intensity" ∈ available_columns then available_columns.indexOf "intensity"
      else base_signal_index
    .proceed available_columns default_time_col_index default_signal_col_index

/-- Whether the column stage stopped the run (`st.stop()`, line 204). -/
def ColumnStage.isHalted : ColumnStage → Bool
  | .halted _ => true
  | .proceed _ _ _ => false

theorem parseCsv_ne_unicode (content : List Char) (d : Char) (n : Option Nat) :
    parseCsv content d n ≠ .error .unicodeDecodeError := by
  unfold parseCsv
  cases h : (splitOnChar '\n' content).filter (fun l => !l.isEmpty) with
  | nil => simp
  | cons a t =>
      simp only
      split <;> simp

theorem read_csv_with_fallback_eq (buf : FileBuffer) (d : Char) (n : Option Nat) :
    read_csv_with_fallback buf d n =
      (readPolicy buf.data d n, ⟨buf.data, buf.data.length⟩) := by
  cases h8 : utf8Decode buf.data with
  | none =>
      simp [read_csv_with_fallback, pdReadCsv, FileBuffer.seek0, readPolicy, h8]
  | some content =>
      cases hp : parseCsv content d n with
      | ok f =>
          simp [read_csv_with_fallback, pdReadCsv, FileBuffer.seek0, readPolicy, h8, hp]
      | error pe =>
          cases pe with
          | unicodeDecodeError => exact absurd hp (parseCsv_ne_unicode content d n)
          | emptyDataError =>
              simp [read_csv_with_fallback, pdReadCsv, FileBuffer.seek0, readPolicy, h8, hp]
          | parserError =>
              simp [read_csv_with_fallback, pdReadCsv, FileBuffer.seek0, readPolicy, h8, hp]

theorem utf8Run_ascii_ne_none (bs : List Nat) (acc : List Char)
    (h : ∀ b ∈ bs, b < 0x80) : utf8Run 0 0 0 acc bs ≠ none := by
  induction bs generalizing acc with
  | nil => simp [utf8Run]
  | cons b t ih =>
      have hb : b < 0x80 := h b (List.mem_cons_self b t)
      rw [show utf8Run 0 0 0 acc (b :: t) = utf8Run 0 0 0 (Char.ofNat b :: acc) t from by
        simp [utf8Run, hb]]
      exact ih _ (fun x hx => h x (List.mem_cons_of_mem b hx))

theorem exists_big_byte_of_utf8_fail (bs : List Nat) (h : utf8Decode bs = none) :
    ∃ b ∈ bs, 0x80 ≤ b := by
  by_contra hc
  push_neg at hc
  exact utf8Run_ascii_ne_none bs [] (fun b hb => hc b hb) h

theorem charOfNat_ne_newline (b : Nat) (h1 : 0x80 ≤ b) (h2 : b < 256) :
    Char.ofNat b ≠ '\n' := by
  intro h
  have hv : b.isValidChar := Or.inl (by omega)
  have ht : (Char.ofNat b).toNat = b := by
    unfold Char.ofNat
    rw [dif_pos hv]
    rfl
  rw [h] at ht
  have h10 : ('\n').toNat = 10 := rfl
  omega

theorem splitOnChar_filter_ne_nil (content : List Char) (c : Char) (hc : c ∈ content)
    (hne : c ≠ '\n') :
    (splitOnChar '\n' content).filter (fun l => !l.isEmpty) ≠ [] := by
  induction content with
  | nil => cases hc
  | cons a t ih =>
      by_cases ha : a = '\n'
      · subst ha
        have hct : c ∈ t := by
          cases List.mem_cons.mp hc with
          | inl h => exact absurd h hne
          | inr h => exact h
        simp only [splitOnChar, if_pos rfl, List.filter_cons]
        simpa using ih hct
      · simp only [splitOnChar, if_neg ha]
        cases hsp : splitOnChar '\n' t with
        | nil => simp [List.filter]
        | cons l ls => simp [List.filter_cons]

theorem parseCsv_ok_or_parserError (content : List Char) (c : Char) (hc : c ∈ content)
    (hne : c ≠ '\n') (d : Char) (n : Option Nat) :
    (∃ f, parseCsv content d n = .ok f) ∨ parseCsv content d n = .error .parserError := by
  unfold parseCsv
  cases h : (splitOnChar '\n' content).filter (fun l => !l.isEmpty) with
  | nil => exact absurd h (splitOnChar_filter_ne_nil content c hc hne)
  | cons a t =>
      simp only
      split
      · exact Or.inr rfl
      · exact Or.inl ⟨_, rfl⟩

theorem any_take_eq_false {α : Type} (l : List α) (p : α → Bool) (n : Nat)
    (h : l.any p = false) : (l.take n).any p = false := by
  rw [List.any_eq_false] at h ⊢
  exact fun x hx => h x (List.take_subset n l hx)

theorem parseCsv_nrows (content : List Char) (d : Char) (n : Nat) (F : RawFrame)
    (h : parseCsv content d none = .ok F) :
    parseCsv content d (some n) = .ok ⟨F.header, F.rows.take n⟩ := by
  unfold parseCsv at h ⊢
  cases hl : (splitOnChar '\n' content).filter (fun l => !l.isEmpty) with
  | nil => rw [hl] at h; exact Except.noConfusion h
  | cons a t =>
      rw [hl] at h
      simp only [List.map_take] at h ⊢
      split at h
      · exact Except.noConfusion h
      · rename_i hbad
        simp only [Except.ok.injEq] at h
        subst h
        rw [if_neg (by
          rw [Bool.not_eq_true] at hbad ⊢
          exact any_take_eq_false _ _ n hbad)]

/-- The bytes of the file content "Tempo,Sinal\n0.1,0.05\n". -/
def c5bytes : List Nat :=
  [84, 101, 109, 112, 111, 44, 83, 105, 110, 97, 108, 10,
   48, 46, 49, 44, 48, 46, 48, 53, 10]

/-- C5 counterexample: parsing a comma-delimited file under the wrong
delimiter ';' yields a dataset with exactly one column, and the run is NOT
halted — the check `if not available_columns` (line 202) only fires on an
empty column list, so the one-column dataset proceeds to column selection
(with both selectors defaulting to the single column). -/
theorem C5_one_column_proceeds :
    (read_csv_with_fallback ⟨c5bytes, 0⟩ ';' none).1 =
      .ok ⟨["Tempo,Sinal"], [["0.1,0.05"]]⟩ ∧
    (RawFrame.header ⟨["Tempo,Sinal"], [["0.1,0.05"]]⟩).length = 1 ∧
    columnStage ⟨["Tempo,Sinal"], [["0.1,0.05"]]⟩ = .proceed ["Tempo,Sinal"] 0 0 ∧
    (columnStage ⟨["Tempo,Sinal"], [["0.1,0.05"]]⟩).isHalted = false := by
  refine ⟨by decide, by decide, by decide, by decide⟩

/-- C5 (amended): processing halts before the column-selection step exactly
when the parsed dataset's column list is empty, in which case the
column-detection error is reported and `st.stop()` fires; any non-empty
column list — a one-column dataset included — passes the check and proceeds
to the column selectors. -/
theorem C5_halt_iff_no_columns (f : RawFrame) :
    (f.header = [] →
      columnStage f =
        .halted [.error "Não foram detetadas colunas no ficheiro. Verifique o delimitador."]) ∧
    (f.header ≠ [] → (columnStage f).isHalted = false) := by
  constructor
  · intro h
    unfold columnStage
    rw [h]
    rfl
  · intro h
    unfold columnStage
    rw [if_neg (by simp [List.isEmpty_iff, h])]
    rfl

theorem C5_halt_iff_no_columns_witness :
    columnStage ⟨[], []⟩ =
      .halted [.error "Não foram detetadas colunas no ficheiro. Verifique o delimitador."] ∧
    (columnStage ⟨["Tempo", "Sinal"], []⟩).isHalted = false :=
  ⟨(C5_halt_iff_no_columns ⟨[], []⟩).1 rfl,
   (C5_halt_iff_no_columns ⟨["Tempo", "Sinal"], []⟩).2 (by decide)⟩

/-- The bytes of the file content "aé,b\n1,2\n1,2,3\n" with é encoded as the
single Latin-1 byte 0xE9 (so the content is not valid UTF-8, and its third
line has more fields than the two-column header). -/
def c6bytes : List Nat :=
  [97, 233, 44, 98, 10, 49, 44, 50, 10, 49, 44, 50, 44, 51, 10]

/-- C6 counterexample: these bytes fail UTF-8 decoding and are valid Latin-1,
yet the ingestion does NOT parse successfully — after the Latin-1 fallback
decodes them, `pd.read_csv` raises a `ParserError` on the ragged third line
("1,2,3" against the two-column header "aé,b"), and a `ParserError` is not a
`UnicodeDecodeError`, so it escapes the fallback ladder to the outer
handler. -/
theorem C6_ragged_latin1_not_parsed :
    utf8Decode c6bytes = none ∧
    (∀ b ∈ c6bytes, b < 256) ∧
    (read_csv_with_fallback ⟨c6bytes, 0⟩ ',' none).1 = .error .parserError := by
  refine ⟨by decide, by decide, by decide⟩

/-- C6 (amended): the ingestor decodes UTF-8 first and on a
`UnicodeDecodeError` rewinds the buffer and retries Latin-1 (first two
parts); for bytes that fail UTF-8 decoding the Latin-1 fallback itself
always decodes successfully — the read either parses to a dataset or fails
with `pd.read_csv`'s own `ParserError` (which the `UnicodeDecodeError`
handler does not catch), never with a decode error or an empty-data error
(third part: Latin-1 decodes every byte, and a UTF-8 failure guarantees some
byte ≥ 0x80, hence a non-blank line); and the bounded preview parse and the
full-dataset parse both go through that same single policy with the same
delimiter, differing only in `nrows` (fourth part). -/
theorem C6_encoding_fallback (bytes : List Nat) (d : Char) (n : Option Nat) :
    (∀ content, utf8Decode bytes = some content →
      read_csv_with_fallback ⟨bytes, 0⟩ d n =
        (parseCsv content d n, ⟨bytes, bytes.length⟩)) ∧
    (utf8Decode bytes = none →
      read_csv_with_fallback ⟨bytes, 0⟩ d n =
        (parseCsv (latin1Decode bytes) d n, ⟨bytes, bytes.length⟩)) ∧
    ((∀ b ∈ bytes, b < 256) → utf8Decode bytes = none →
      (∃ f, (read_csv_with_fallback ⟨bytes, 0⟩ d n).1 = .ok f) ∨
        (read_csv_with_fallback ⟨bytes, 0⟩ d n).1 = .error .parserError) ∧
    ((previewAndFull bytes d).1 = (read_csv_with_fallback ⟨bytes, 0⟩ d (some 10)).1 ∧
      (previewAndFull bytes d).2 = (read_csv_with_fallback ⟨bytes, 0⟩ d none).1) := by
  refine ⟨?_, ?_, ?_, ?_, ?_⟩
  · intro content h8
    rw [read_csv_with_fallback_eq]
    simp [readPolicy, h8]
  · intro h8
    rw [read_csv_with_fallback_eq]
    simp [readPolicy, h8]
  · intro hbound h8
    obtain ⟨b, hbmem, hbge⟩ := exists_big_byte_of_utf8_fail bytes h8
    have hchar : Char.ofNat b ∈ latin1Decode bytes :=
      List.mem_map_of_mem _ hbmem
    have hnl : Char.ofNat b ≠ '\n' := charOfNat_ne_newline b hbge (hbound b hbmem)
    cases parseCsv_ok_or_parserError (latin1Decode bytes) _ hchar hnl d n with
    | inl hok =>
        obtain ⟨f, hf⟩ := hok
        refine Or.inl ⟨f, ?_⟩
        rw [read_csv_with_fallback_eq]
        simpa [readPolicy, h8] using hf
    | inr hpe =>
        refine Or.inr ?_
        rw [read_csv_with_fallback_eq]
        simpa [readPolicy, h8] using hpe
  · rfl
  · show (read_csv_with_fallback
        (read_csv_with_fallback ⟨bytes, 0⟩ d (some 10)).2 d none).1 =
      (read_csv_with_fallback ⟨bytes, 0⟩ d none).1
    rw [read_csv_with_fallback_eq, read_csv_with_fallback_eq, read_csv_with_fallback_eq]

theorem C6_encoding_fallback_witness :
    read_csv_with_fallback ⟨[97], 0⟩ ',' none =
      (parseCsv ['a'] ',' none, ⟨[97], 1⟩) ∧
    read_csv_with_fallback ⟨[233], 0⟩ ',' none =
      (parseCsv (latin1Decode [233]) ',' none, ⟨[233], 1⟩) ∧
    ((∃ f, (read_csv_with_fallback ⟨[233], 0⟩ ',' none).1 = .ok f) ∨
      (read_csv_with_fallback ⟨[233], 0⟩ ',' none).1 = .error .parserError) := by
  refine ⟨(C6_encoding_fallback [97] ',' none).1 ['a'] (by decide),
          (C6_encoding_fallback [233] ',' none).2.1 (by decide),
          (C6_encoding_fallback [233] ',' none).2.2.1 (by decide) (by decide)⟩

/-- C9: re-reads of the in-memory buffer are idempotent and side-effect-free:
the parse result depends only on the buffer's byte content (any prior read
position is erased by the seek-to-start, so repeated parses with the same
delimiter and policy yield identical tabular results), the byte content is
never changed by a read, and the 10-row preview returns exactly the header
and first `n` data rows of the full dataset. -/
theorem C9_parse_idempotent (bytes : List Nat) (d : Char) (n p p2 : Nat) :
    ((read_csv_with_fallback ⟨bytes, p⟩ d (some n)).1 =
      (read_csv_with_fallback ⟨bytes, p2⟩ d (some n)).1) ∧
    ((read_csv_with_fallback ⟨bytes, p⟩ d (some n)).2.data = bytes) ∧
    (∀ F, (read_csv_with_fallback ⟨bytes, p⟩ d none).1 = .ok F →
      (read_csv_with_fallback ⟨bytes, p⟩ d (some n)).1 =
        .ok ⟨F.header, F.rows.take n⟩) := by
  refine ⟨?_, ?_, ?_⟩
  · rw [read_csv_with_fallback_eq, read_csv_with_fallback_eq]
  · rw [read_csv_with_fallback_eq]
  · intro F hF
    rw [read_csv_with_fallback_eq] at hF
    rw [read_csv_with_fallback_eq]
    simp only at hF ⊢
    unfold readPolicy at hF ⊢
    cases h8 : utf8Decode bytes with
    | none =>
        rw [h8] at hF
        exact parseCsv_nrows _ d n F hF
    | some content =>
        rw [h8] at hF
        exact parseCsv_nrows _ d n F hF

theorem C9_parse_idempotent_witness :
    (read_csv_with_fallback
        ⟨[97, 44, 98, 10, 49, 44, 50, 10, 51, 44, 52, 10], 5⟩ ',' (some 1)).1 =
      .ok ⟨["a", "b"], [["1", "2"]]⟩ := by
  have h3 := (C9_parse_idempotent [97, 44, 98, 10, 49, 44, 50, 10, 51, 44, 52, 10] ',' 1 5 0).2.2
    ⟨["a", "b"], [["1", "2"], ["3", "4"]]⟩ (by decide)
  rw [h3]
  decide
